import Mathlib

/-!
Shallow embedding of `src/example.py`: a Prometheus-instrumented web scraper.
The module registers four metrics (two counters, a duration summary and a
gauge), defines `WebScraper.scrape_page` wrapping one fetch+parse+delay
attempt in a `try`/`except Exception`/`finally` block, and `main` which
starts the metrics listener and loops forever over a fixed URL list with a
60-second pause between rounds.

Modelling choices:
- Metric state is a record of the four metrics; a summary is its count and
  sum of observations; durations are rationals.
- The environment of one attempt (what the network GET, the HTML parse and
  the simulated delay do) is an oracle value `BlockOutcome`: the block either
  runs to completion, raises a Python `Exception`, or raises a
  `BaseException` that is not an `Exception` (e.g. `KeyboardInterrupt`).
- Python's `with SCRAPE_DURATION.time():` observes the elapsed time on every
  exit of the block, exceptional or not (the timer's scope-exit callback runs
  unconditionally and records `max(elapsed, 0)`).
- `except Exception` catches exactly the `Exception` outcomes; a
  `BaseException` outcome propagates, but the `finally` clause still runs.
- Fallible control flow is made explicit with `PyResult`.
-/

namespace PromScraper

/-- Process-wide metric state: the two counters, the duration summary
(count and sum of observations) and the gauge registered at module import
in `example.py` lines 8-11. -/
structure Metrics where
  scrapes_total : ℕ
  scrape_errors : ℕ
  scrape_duration_count : ℕ
  scrape_duration_sum : ℚ
  active_scrapers : ℤ
deriving Repr, DecidableEq

/-- All metrics start at zero when the process starts. -/
def initMetrics : Metrics :=
  { scrapes_total := 0
    scrape_errors := 0
    scrape_duration_count := 0
    scrape_duration_sum := 0
    active_scrapers := 0 }

/-- The kind of a registered Prometheus metric. -/
inductive MetricKind where
  | counter
  | gauge
  | summary
deriving Repr, DecidableEq

/-- The metric registrations performed at module import (`example.py`
lines 8-11): name, kind and help text, in source order. -/
def registry : List (String × MetricKind × String) :=
  [("scraper_pages_scraped_total", MetricKind.counter, "Total number of pages scraped"),
   ("scraper_errors_total", MetricKind.counter, "Total number of scraping errors"),
   ("scraper_scrape_duration_seconds", MetricKind.summary, "Time spent scraping pages"),
   ("scraper_active_scrapers", MetricKind.gauge, "Number of active scrapers")]

/-- Python's `random.uniform(a, b)`, which returns `a + (b - a) * random()`
for a fraction `random()` drawn from the unit interval. -/
def uniform (a b r : ℚ) : ℚ := a + (b - a) * r

/-- The environment's behaviour for one execution of the timed block
(`example.py` lines 23-26): either the GET, the parse and the sleep all
complete (`ok`, carrying the wall-clock time `fetchParse` of the GET+parse
and the RNG fraction `r` behind `random.uniform(0.5, 2)`), or a Python
`Exception` is raised inside the block (`exc`, carrying the exception text
and the wall-clock time spent before it), or a `BaseException` that is not
an `Exception` is raised inside the block (`baseExc`). -/
inductive BlockOutcome where
  | ok (fetchParse : ℚ) (r : ℚ)
  | exc (msg : String) (elapsed : ℚ)
  | baseExc (msg : String) (elapsed : ℚ)
deriving Repr

/-- Whether the outcome is a `BaseException` that `except Exception` does
not catch. -/
def BlockOutcome.isBase : BlockOutcome → Bool
  | .baseExc _ _ => true
  | _ => false

/-- Whether the block ran to completion. -/
def BlockOutcome.isOk : BlockOutcome → Bool
  | .ok _ _ => true
  | _ => false

/-- Whether the block raised a catchable `Exception`. -/
def BlockOutcome.isExc : BlockOutcome → Bool
  | .exc _ _ => true
  | _ => false

/-- Wall-clock time spent inside the timed block for a given outcome: on
completion it is the GET+parse time plus the simulated delay
`random.uniform(0.5, 2)`. -/
def blockElapsed : BlockOutcome → ℚ
  | .ok fp r => fp + uniform (1/2) 2 r
  | .exc _ e => e
  | .baseExc _ e => e

/-- One observation into the `SCRAPE_DURATION` summary: the timer's
scope-exit callback records `max(elapsed, 0)`. -/
def observe (m : Metrics) (d : ℚ) : Metrics :=
  { m with
    scrape_duration_count := m.scrape_duration_count + 1
    scrape_duration_sum := m.scrape_duration_sum + max d 0 }

/-- `ACTIVE_SCRAPERS.inc()` (`example.py` line 20). -/
def gauge_inc (m : Metrics) : Metrics :=
  { m with active_scrapers := m.active_scrapers + 1 }

/-- `ACTIVE_SCRAPERS.dec()` in the `finally` clause (`example.py` line 37). -/
def gauge_dec (m : Metrics) : Metrics :=
  { m with active_scrapers := m.active_scrapers - 1 }

/-- Result of a Python call: a returned value, or a propagating
`BaseException` carrying its text. -/
inductive PyResult (α : Type) where
  | ret (a : α)
  | raised (msg : String)
deriving Repr, DecidableEq

/-- The stdout line printed by the `except` clause (`example.py` line 33):
the f-string `f"Error scraping {url}: {str(e)}"`. -/
def errorLine (url msg : String) : String :=
  "Error scraping " ++ url ++ ": " ++ msg

/-- `WebScraper.scrape_page` (`example.py` lines 18-37). Given the current
metric state, the URL and the environment's outcome for the timed block, it
returns the Python result (a boolean, or a propagating `BaseException`),
the metric state after the call, and the list of stdout lines it printed.
The gauge is incremented first; the duration observation fires on every
exit of the `with` block; on completion `SCRAPES_TOTAL` is incremented and
`True` returned; on a caught `Exception`, `SCRAPE_ERRORS` is incremented,
one error line printed and `False` returned; a `BaseException` propagates;
the `finally` clause decrements the gauge on every path. -/
def scrape_page (m : Metrics) (url : String) (out : BlockOutcome) :
    PyResult Bool × Metrics × List String :=
  let m1 := gauge_inc m
  let m2 := observe m1 (blockElapsed out)
  match out with
  | .ok _ _ =>
      (.ret true, gauge_dec { m2 with scrapes_total := m2.scrapes_total + 1 }, [])
  | .exc msg _ =>
      (.ret false, gauge_dec { m2 with scrape_errors := m2.scrape_errors + 1 },
        [errorLine url msg])
  | .baseExc msg _ =>
      (.raised msg, gauge_dec m2, [])

/-- The fixed URL list of `main` (`example.py` lines 49-53). -/
def urls : List String :=
  ["http://example.com", "http://example.org", "http://example.net"]

/-- The poll interval of `main` (`example.py` line 59), in seconds. -/
def pollInterval : ℚ := 60

/-- The informational line `main` prints once the metrics listener is up
(`example.py` line 43). -/
def startup_line : String := "Prometheus metrics server started on port 8000"

/-- Observable events of a run: a scrape attempt starting on a URL, a line
printed to stdout, or a `time.sleep` for a number of seconds. -/
inductive Event where
  | attempt (url : String)
  | line (s : String)
  | sleep (seconds : ℚ)
deriving Repr

/-- The URLs attempted in an event list, in order. -/
def attemptUrls : List Event → List String
  | [] => []
  | .attempt u :: evs => u :: attemptUrls evs
  | .line _ :: evs => attemptUrls evs
  | .sleep _ :: evs => attemptUrls evs

/-- The stdout lines in an event list, in order. -/
def outLines : List Event → List String
  | [] => []
  | .line s :: evs => s :: outLines evs
  | .attempt _ :: evs => outLines evs
  | .sleep _ :: evs => outLines evs

/-- Whether an event is a sleep. -/
def Event.isSleep : Event → Bool
  | .sleep _ => true
  | _ => false

/-- The stdout error lines a list of attempts produces: one line per attempt
whose block raises a catchable `Exception`, in attempt order. -/
def errLines : List (String × BlockOutcome) → List String
  | [] => []
  | (url, .exc msg _) :: rest => errorLine url msg :: errLines rest
  | (_, .ok _ _) :: rest => errLines rest
  | (_, .baseExc _ _) :: rest => errLines rest

/-- The stdout error lines of a list of rounds, in order. -/
def errLinesRounds : List (List (String × BlockOutcome)) → List String
  | [] => []
  | r :: rs => errLines r ++ errLinesRounds rs

/-- The inner `for url in urls:` loop of `main` (`example.py` lines 57-58):
each attempt is a URL paired with the environment's outcome for its block.
The boolean result of `scrape_page` is discarded; a propagating
`BaseException` aborts the loop. Returns the Python result, the final
metric state and the events in order. -/
def run_for (m : Metrics) : List (String × BlockOutcome) → PyResult Unit × Metrics × List Event
  | [] => (.ret (), m, [])
  | (url, out) :: rest =>
      match scrape_page m url out with
      | (.ret _, m', lines) =>
          let (res, m'', evs) := run_for m' rest
          (res, m'', .attempt url :: (lines.map .line ++ evs))
      | (.raised msg, m', lines) =>
          (.raised msg, m', .attempt url :: lines.map .line)

/-- One round of the `while True:` loop of `main` (`example.py` lines
56-59): the `for` loop over all URLs followed by `time.sleep(60)`; a
propagating `BaseException` skips the sleep. -/
def run_round (m : Metrics) (atts : List (String × BlockOutcome)) :
    PyResult Unit × Metrics × List Event :=
  match run_for m atts with
  | (.ret _, m', evs) => (.ret (), m', evs ++ [.sleep pollInterval])
  | (.raised msg, m', evs) => (.raised msg, m', evs)

/-- Finitely many rounds of the `while True:` loop, in order; a propagating
`BaseException` aborts the loop. -/
def run_rounds (m : Metrics) : List (List (String × BlockOutcome)) → PyResult Unit × Metrics × List Event
  | [] => (.ret (), m, [])
  | r :: rs =>
      match run_round m r with
      | (.ret _, m', evs) =>
          let (res, m'', evs') := run_rounds m' rs
          (res, m'', evs ++ evs')
      | (.raised msg, m', evs) => (.raised msg, m', evs)

/-- `main` (`example.py` lines 40-59), run for finitely many rounds of the
infinite loop: the startup print after the listener starts, then the rounds.
Metric state starts at the process-start zeros. -/
def main_run (rounds : List (List (String × BlockOutcome))) :
    PyResult Unit × Metrics × List Event :=
  let (res, m, evs) := run_rounds initMetrics rounds
  (res, m, .line startup_line :: evs)

/-! Theorems. -/

/-- Helper: `scrape_page` never decreases either counter. -/
theorem scrape_page_counters_le (m : Metrics) (url : String) (out : BlockOutcome) :
    m.scrapes_total ≤ (scrape_page m url out).2.1.scrapes_total ∧
    m.scrape_errors ≤ (scrape_page m url out).2.1.scrape_errors := by
  cases out <;> simp [scrape_page, gauge_inc, gauge_dec, observe]

/-- C1: on every exit path of `scrape_page` — completion, a caught
`Exception`, or a propagating `BaseException` — the `ACTIVE_SCRAPERS` gauge
is incremented exactly once before the attempt (by `gauge_inc`) and
decremented exactly once after it (by `gauge_dec` in the `finally` clause),
so its value after the call equals its value before the call. -/
theorem active_scrapers_paired (m : Metrics) (url : String) (out : BlockOutcome) :
    (gauge_inc m).active_scrapers = m.active_scrapers + 1 ∧
    (gauge_dec m).active_scrapers = m.active_scrapers - 1 ∧
    (scrape_page m url out).2.1.active_scrapers = m.active_scrapers := by
  refine ⟨rfl, rfl, ?_⟩
  cases out <;> simp [scrape_page, gauge_inc, gauge_dec, observe]

/-- C2 counterexample: a `BaseException` (here `KeyboardInterrupt`) raised
during the attempt leaves `ErrorCount` at 0 and `ScrapeCount` at 0 — an
exception was raised yet neither counter incremented, refuting the claim
that any exception increments `ErrorCount` by exactly 1 and that exactly
one of the two counters increments in every attempt. -/
theorem counters_base_exception_cex :
    (scrape_page initMetrics "http://example.com"
        (.baseExc "KeyboardInterrupt" 1)).1 = PyResult.raised "KeyboardInterrupt" ∧
    (scrape_page initMetrics "http://example.com"
        (.baseExc "KeyboardInterrupt" 1)).2.1.scrape_errors = 0 ∧
    (scrape_page initMetrics "http://example.com"
        (.baseExc "KeyboardInterrupt" 1)).2.1.scrapes_total = 0 := by
  refine ⟨rfl, ?_, ?_⟩ <;> simp [scrape_page, initMetrics, gauge_inc, gauge_dec, observe]

/-- C2 (amended): a completed attempt increments `ScrapeCount` by exactly 1
and leaves `ErrorCount` unchanged; an attempt that raises a catchable
`Exception` increments `ErrorCount` by exactly 1 and leaves `ScrapeCount`
unchanged; an attempt that raises a non-`Exception` `BaseException` changes
neither; so exactly one of the two counters increments in every attempt
except the `BaseException` path, where neither does. -/
theorem counters_per_attempt (m : Metrics) (url : String) (out : BlockOutcome) :
    (scrape_page m url out).2.1.scrapes_total
      = m.scrapes_total + (if out.isOk = true then 1 else 0) ∧
    (scrape_page m url out).2.1.scrape_errors
      = m.scrape_errors + (if out.isExc = true then 1 else 0) ∧
    (if out.isOk = true then 1 else 0) + (if out.isExc = true then 1 else 0)
      = (if out.isBase = true then 0 else 1) := by
  cases out <;>
    simp [scrape_page, gauge_inc, gauge_dec, observe,
      BlockOutcome.isOk, BlockOutcome.isExc, BlockOutcome.isBase]

/-- C3 counterexample: at a concrete input whose block raises a
`BaseException` (here `SystemExit`), `scrape_page` does not return a
boolean at all — it propagates the exception to its caller — refuting the
claim that it never raises and always returns a boolean. -/
theorem scrape_page_raises_cex :
    (scrape_page initMetrics "http://example.org"
        (.baseExc "SystemExit" 2)).1 = PyResult.raised "SystemExit" ∧
    (scrape_page initMetrics "http://example.org"
        (.baseExc "SystemExit" 2)).1 ≠ PyResult.ret true ∧
    (scrape_page initMetrics "http://example.org"
        (.baseExc "SystemExit" 2)).1 ≠ PyResult.ret false := by
  refine ⟨rfl, ?_, ?_⟩ <;> simp [scrape_page]

/-- C3 (amended): `scrape_page` never raises a catchable `Exception` to its
caller — whenever the block's outcome is not a `BaseException`, it returns
a boolean that is true if and only if the attempt completed without
exception; only a `BaseException` that is not an `Exception` propagates,
carrying the exception's text. -/
theorem scrape_page_result (m : Metrics) (url : String) (out : BlockOutcome) :
    (out.isBase = false → (scrape_page m url out).1 = PyResult.ret out.isOk) ∧
    (∀ msg e, out = BlockOutcome.baseExc msg e →
      (scrape_page m url out).1 = PyResult.raised msg) := by
  cases out <;>
    simp [scrape_page, BlockOutcome.isBase, BlockOutcome.isOk]

/-- C3 (amended) witness: at a concrete `Exception` outcome the call
returns `False` rather than raising. -/
theorem scrape_page_result_witness :
    (scrape_page initMetrics "http://example.org" (.exc "boom" 1)).1
      = PyResult.ret (BlockOutcome.exc "boom" 1).isOk :=
  (scrape_page_result initMetrics "http://example.org" (.exc "boom" 1)).1 rfl

/-- C4: every scrape attempt, whatever its outcome, records exactly one
observation into the `SCRAPE_DURATION` summary, and (when the elapsed time
is non-negative, as wall-clock time is) the recorded value equals the
wall-clock time spent inside the timed block; consequently on the success
and caught-`Exception` paths the summary's observation count stays equal to
`ScrapeCount + ErrorCount`. -/
theorem scrape_duration_per_attempt (m : Metrics) (url : String) (out : BlockOutcome) :
    (scrape_page m url out).2.1.scrape_duration_count = m.scrape_duration_count + 1 ∧
    (0 ≤ blockElapsed out →
      (scrape_page m url out).2.1.scrape_duration_sum
        = m.scrape_duration_sum + blockElapsed out) ∧
    (out.isBase = false →
      m.scrape_duration_count = m.scrapes_total + m.scrape_errors →
      (scrape_page m url out).2.1.scrape_duration_count
        = (scrape_page m url out).2.1.scrapes_total
          + (scrape_page m url out).2.1.scrape_errors) := by
  refine ⟨?_, fun h => ?_, fun hb hinv => ?_⟩
  · cases out <;> simp [scrape_page, gauge_inc, gauge_dec, observe]
  · cases out <;>
      simp [scrape_page, gauge_inc, gauge_dec, observe, max_eq_left h]
  · cases out <;>
      simp_all [scrape_page, gauge_inc, gauge_dec, observe, BlockOutcome.isBase] <;> omega

/-- C4 witness: a concrete failed attempt still records its observation and
keeps the count invariant. -/
theorem scrape_duration_per_attempt_witness :
    (scrape_page initMetrics "http://example.net" (.exc "timeout" 1)).2.1.scrape_duration_count
      = initMetrics.scrape_duration_count + 1 ∧
    (scrape_page initMetrics "http://example.net" (.exc "timeout" 1)).2.1.scrape_duration_sum
      = initMetrics.scrape_duration_sum + blockElapsed (.exc "timeout" 1) ∧
    (scrape_page initMetrics "http://example.net" (.exc "timeout" 1)).2.1.scrape_duration_count
      = (scrape_page initMetrics "http://example.net" (.exc "timeout" 1)).2.1.scrapes_total
        + (scrape_page initMetrics "http://example.net" (.exc "timeout" 1)).2.1.scrape_errors := by
  have h := scrape_duration_per_attempt initMetrics "http://example.net" (.exc "timeout" 1)
  exact ⟨h.1, h.2.1 (by norm_num [blockElapsed]), h.2.2 rfl (by simp [initMetrics])⟩

/-- C8: the four metrics are registered under exactly the names
`scraper_pages_scraped_total` (counter), `scraper_errors_total` (counter),
`scraper_scrape_duration_seconds` (summary) and `scraper_active_scrapers`
(gauge), with no duplicate and no other name. -/
theorem metric_names :
    registry.map (fun e => (e.1, e.2.1))
      = [("scraper_pages_scraped_total", MetricKind.counter),
         ("scraper_errors_total", MetricKind.counter),
         ("scraper_scrape_duration_seconds", MetricKind.summary),
         ("scraper_active_scrapers", MetricKind.gauge)] ∧
    (registry.map fun e => e.1).Nodup ∧
    registry.length = 4 := by
  refine ⟨rfl, ?_, rfl⟩
  decide

/-- C9: in every completed attempt the simulated processing delay is
`uniform 0.5 2 r` for the RNG fraction `r`, the block's elapsed time is the
fetch+parse time plus that delay, and for every fraction in the unit
interval the delay lies in the closed interval from 0.5 to 2 seconds. -/
theorem simulated_delay_range (fp r : ℚ) (h0 : 0 ≤ r) (h1 : r ≤ 1) :
    blockElapsed (.ok fp r) = fp + uniform (1/2) 2 r ∧
    1/2 ≤ uniform (1/2) 2 r ∧ uniform (1/2) 2 r ≤ 2 := by
  refine ⟨rfl, ?_, ?_⟩ <;> simp [uniform] <;> nlinarith

/-- C9 witness: at the concrete fraction one half, the delay is within
bounds. -/
theorem simulated_delay_range_witness :
    blockElapsed (.ok 0 (1/2)) = 0 + uniform (1/2) 2 (1/2) ∧
    1/2 ≤ uniform (1/2) 2 (1/2) ∧ uniform (1/2) 2 (1/2) ≤ 2 :=
  simulated_delay_range 0 (1/2) (by norm_num) (by norm_num)

/-- C10: when the block raises a `BaseException` that is not an `Exception`
(such as `KeyboardInterrupt` or `SystemExit`), `scrape_page` propagates it
to the caller, neither `ScrapeCount` nor `ErrorCount` is incremented, no
error line is printed, and the `finally` clause still decrements
`ACTIVE_SCRAPERS`, so the gauge returns to its pre-call value. -/
theorem base_exception_path (m : Metrics) (url msg : String) (e : ℚ) :
    (scrape_page m url (.baseExc msg e)).1 = PyResult.raised msg ∧
    (scrape_page m url (.baseExc msg e)).2.1.scrapes_total = m.scrapes_total ∧
    (scrape_page m url (.baseExc msg e)).2.1.scrape_errors = m.scrape_errors ∧
    (scrape_page m url (.baseExc msg e)).2.2 = [] ∧
    (scrape_page m url (.baseExc msg e)).2.1.active_scrapers = m.active_scrapers := by
  refine ⟨rfl, ?_, ?_, rfl, ?_⟩ <;> simp [scrape_page, gauge_inc, gauge_dec, observe]

/-- Helper: `outLines` distributes over list append. -/
theorem outLines_append (a b : List Event) :
    outLines (a ++ b) = outLines a ++ outLines b := by
  induction a with
  | nil => rfl
  | cons e a ih => cases e <;> simp [outLines, ih]

/-- Helper: prepending printed lines does not change the attempted URLs. -/
theorem attemptUrls_line_append (ls : List String) (evs : List Event) :
    attemptUrls (ls.map Event.line ++ evs) = attemptUrls evs := by
  induction ls with
  | nil => rfl
  | cons s ls ih => simp [attemptUrls, ih]

/-- Helper: the stdout lines of printed-line events are those lines. -/
theorem outLines_line_append (ls : List String) (evs : List Event) :
    outLines (ls.map Event.line ++ evs) = ls ++ outLines evs := by
  induction ls with
  | nil => rfl
  | cons s ls ih => simp [outLines, ih]

/-- Helper: the lines one call prints are its own error lines. -/
theorem scrape_page_lines (m : Metrics) (url : String) (out : BlockOutcome) :
    (scrape_page m url out).2.2 = errLines [(url, out)] := by
  cases out <;> rfl

/-- Helper: `errLines` peels one attempt off the front. -/
theorem errLines_cons (a : String × BlockOutcome) (rest : List (String × BlockOutcome)) :
    errLines (a :: rest) = errLines [a] ++ errLines rest := by
  obtain ⟨url, out⟩ := a
  cases out <;> rfl

/-- Helper: unfolding of the `for` loop on an attempt whose `scrape_page`
call returns (any outcome that is not a propagating `BaseException`). -/
theorem run_for_cons (m : Metrics) (url : String) (out : BlockOutcome)
    (rest : List (String × BlockOutcome)) (hb : out.isBase = false) :
    run_for m ((url, out) :: rest)
      = ((run_for (scrape_page m url out).2.1 rest).1,
         (run_for (scrape_page m url out).2.1 rest).2.1,
         Event.attempt url ::
           ((scrape_page m url out).2.2.map Event.line
             ++ (run_for (scrape_page m url out).2.1 rest).2.2)) := by
  cases out with
  | ok fp r => rfl
  | exc msg e => rfl
  | baseExc msg e => simp [BlockOutcome.isBase] at hb

/-- Helper: unfolding of the `for` loop on an attempt whose block raises a
`BaseException`; the loop aborts at once. -/
theorem run_for_cons_base (m : Metrics) (url msg : String) (e : ℚ)
    (rest : List (String × BlockOutcome)) :
    run_for m ((url, .baseExc msg e) :: rest)
      = (PyResult.raised msg, (scrape_page m url (.baseExc msg e)).2.1,
         [Event.attempt url]) := rfl

/-- Helper: when no attempt in the list raises a `BaseException`, the `for`
loop over it returns normally, attempts exactly the listed URLs in order,
prints exactly the error lines of the failed attempts in order, and
contains no sleep event. -/
theorem run_for_no_base (atts : List (String × BlockOutcome)) :
    ∀ m : Metrics, (∀ a ∈ atts, a.2.isBase = false) →
    ∃ m' evs, run_for m atts = (PyResult.ret (), m', evs) ∧
      attemptUrls evs = atts.map Prod.fst ∧
      outLines evs = errLines atts ∧
      ∀ e ∈ evs, e.isSleep = false := by
  induction atts with
  | nil => exact fun m _ => ⟨m, [], rfl, rfl, rfl, by simp⟩
  | cons a rest ih =>
      intro m hb
      obtain ⟨url, out⟩ := a
      have hb0 : out.isBase = false := hb (url, out) (List.mem_cons_self _ _)
      have hbr : ∀ x ∈ rest, x.2.isBase = false :=
        fun x hx => hb x (List.mem_cons_of_mem _ hx)
      obtain ⟨m', evs, heq, hurls, hlines, hsleep⟩ :=
        ih (scrape_page m url out).2.1 hbr
      refine ⟨m', Event.attempt url ::
        ((scrape_page m url out).2.2.map Event.line ++ evs), ?_, ?_, ?_, ?_⟩
      · rw [run_for_cons m url out rest hb0, heq]
      · simp only [attemptUrls, attemptUrls_line_append, List.map_cons]
        rw [hurls]
      · simp only [outLines, outLines_line_append, scrape_page_lines, hlines]
        rw [← errLines_cons]
      · intro e he
        rcases List.mem_cons.mp he with rfl | he'
        · rfl
        rcases List.mem_append.mp he' with hl | hr
        · obtain ⟨s, _, rfl⟩ := List.mem_map.mp hl
          rfl
        · exact hsleep e hr

/-- C5: one round of the driving loop over the fixed URL list performs
exactly one scrape attempt per URL, in the fixed list order, regardless of
the attempts' outcomes (the boolean results are discarded); only after all
attempts does it sleep for the 60-second poll interval, and the events of
any subsequent rounds come strictly after that sleep. -/
theorem round_structure (m : Metrics) (atts : List (String × BlockOutcome))
    (hn : atts.map Prod.fst = urls) (hb : ∀ a ∈ atts, a.2.isBase = false) :
    ∃ m' evs,
      run_round m atts = (PyResult.ret (), m', evs ++ [Event.sleep pollInterval]) ∧
      attemptUrls evs = urls ∧
      (attemptUrls evs).length = urls.length ∧
      (∀ e ∈ evs, e.isSleep = false) ∧
      ∀ rs, run_rounds m (atts :: rs)
        = ((run_rounds m' rs).1, (run_rounds m' rs).2.1,
           (evs ++ [Event.sleep pollInterval]) ++ (run_rounds m' rs).2.2) := by
  obtain ⟨m', evs, heq, hurls, hlines, hsleep⟩ := run_for_no_base atts m hb
  refine ⟨m', evs, ?_, ?_, ?_, hsleep, ?_⟩
  · simp [run_round, heq]
  · rw [hurls, hn]
  · rw [hurls, hn]
  · intro rs
    rcases hr : run_rounds m' rs with ⟨res, m'', evs'⟩
    simp [run_rounds, run_round, heq, hr]

/-- C5 witness: a concrete round over the three URLs, with one failure in
the middle, attempts them in order and sleeps last. -/
theorem round_structure_witness :
    ∃ m' evs,
      run_round initMetrics
          [("http://example.com", BlockOutcome.ok 1 0),
           ("http://example.org", BlockOutcome.exc "boom" 1),
           ("http://example.net", BlockOutcome.ok 2 1)]
        = (PyResult.ret (), m', evs ++ [Event.sleep pollInterval]) ∧
      attemptUrls evs = urls ∧
      (attemptUrls evs).length = urls.length := by
  obtain ⟨m', evs, h1, h2, h3, _, _⟩ :=
    round_structure initMetrics
      [("http://example.com", BlockOutcome.ok 1 0),
       ("http://example.org", BlockOutcome.exc "boom" 1),
       ("http://example.net", BlockOutcome.ok 2 1)]
      rfl (by simp [List.forall_mem_cons, BlockOutcome.isBase])
  exact ⟨m', evs, h1, h2, h3⟩

/-- Helper: when no attempt in any round raises a `BaseException`, the loop
over the rounds returns normally and its stdout lines are exactly the error
lines of the failed attempts, in order. -/
theorem run_rounds_no_base (rounds : List (List (String × BlockOutcome))) :
    ∀ m : Metrics, (∀ r ∈ rounds, ∀ a ∈ r, a.2.isBase = false) →
    ∃ m' evs, run_rounds m rounds = (PyResult.ret (), m', evs) ∧
      outLines evs = errLinesRounds rounds := by
  induction rounds with
  | nil => exact fun m _ => ⟨m, [], rfl, rfl⟩
  | cons r rs ih =>
      intro m hb
      obtain ⟨m1, evs1, heq1, _, hlines1, _⟩ :=
        run_for_no_base r m (hb r (List.mem_cons_self _ _))
      obtain ⟨m2, evs2, heq2, hlines2⟩ :=
        ih m1 (fun x hx => hb x (List.mem_cons_of_mem _ hx))
      refine ⟨m2, (evs1 ++ [Event.sleep pollInterval]) ++ evs2, ?_, ?_⟩
      · simp [run_rounds, run_round, heq1, heq2]
      · rw [outLines_append, outLines_append]
        simp [outLines, hlines1, hlines2, errLinesRounds]

/-- C7: the stdout of a run is exactly one informational startup line
confirming the metrics listener is active, followed by exactly one line per
failed attempt, in order, and nothing else; and every error line contains
both the failing URL and the exception's textual description. -/
theorem stdout_lines (rounds : List (List (String × BlockOutcome)))
    (hb : ∀ r ∈ rounds, ∀ a ∈ r, a.2.isBase = false) :
    outLines (main_run rounds).2.2 = startup_line :: errLinesRounds rounds ∧
    ∀ url msg, ∃ pre mid,
      (errorLine url msg).data = pre ++ url.data ++ mid ++ msg.data := by
  obtain ⟨m', evs, heq, hlines⟩ := run_rounds_no_base rounds initMetrics hb
  refine ⟨?_, ?_⟩
  · show outLines (Event.line startup_line :: (run_rounds initMetrics rounds).2.2)
      = startup_line :: errLinesRounds rounds
    rw [heq]
    simp [outLines, hlines]
  · intro url msg
    refine ⟨"Error scraping ".data, (": ").data, ?_⟩
    simp [errorLine, String.data_append, List.append_assoc]

/-- C7 witness: one round with one failing attempt prints the startup line
and then exactly that attempt's error line. -/
theorem stdout_lines_witness :
    outLines (main_run [[("http://example.com", BlockOutcome.exc "boom" 1)]]).2.2
      = startup_line
        :: errLinesRounds [[("http://example.com", BlockOutcome.exc "boom" 1)]] ∧
    ∃ pre mid, (errorLine "http://example.com" "boom").data
      = pre ++ "http://example.com".data ++ mid ++ "boom".data := by
  have h := stdout_lines [[("http://example.com", BlockOutcome.exc "boom" 1)]]
    (by simp [List.forall_mem_cons, BlockOutcome.isBase])
  exact ⟨h.1, h.2 "http://example.com" "boom"⟩

/-- Helper: the `for` loop never decreases either counter. -/
theorem run_for_counters_le (atts : List (String × BlockOutcome)) :
    ∀ m : Metrics, m.scrapes_total ≤ (run_for m atts).2.1.scrapes_total ∧
      m.scrape_errors ≤ (run_for m atts).2.1.scrape_errors := by
  induction atts with
  | nil => exact fun m => ⟨le_refl _, le_refl _⟩
  | cons a rest ih =>
      intro m
      obtain ⟨url, out⟩ := a
      have h1 := scrape_page_counters_le m url out
      cases out with
      | ok fp r =>
          have h2 := ih (scrape_page m url (.ok fp r)).2.1
          rw [run_for_cons m url (.ok fp r) rest rfl]
          exact ⟨le_trans h1.1 h2.1, le_trans h1.2 h2.2⟩
      | exc msg e =>
          have h2 := ih (scrape_page m url (.exc msg e)).2.1
          rw [run_for_cons m url (.exc msg e) rest rfl]
          exact ⟨le_trans h1.1 h2.1, le_trans h1.2 h2.2⟩
      | baseExc msg e =>
          rw [run_for_cons_base m url msg e rest]
          exact h1

/-- Helper: one round never decreases either counter. -/
theorem run_round_counters_le (m : Metrics) (atts : List (String × BlockOutcome)) :
    m.scrapes_total ≤ (run_round m atts).2.1.scrapes_total ∧
    m.scrape_errors ≤ (run_round m atts).2.1.scrape_errors := by
  have h := run_for_counters_le atts m
  rcases hf : run_for m atts with ⟨res, m', evs⟩
  rw [hf] at h
  cases res <;> simpa [run_round, hf] using h

/-- Helper: any number of rounds never decreases either counter. -/
theorem run_rounds_counters_le (rounds : List (List (String × BlockOutcome))) :
    ∀ m : Metrics, m.scrapes_total ≤ (run_rounds m rounds).2.1.scrapes_total ∧
      m.scrape_errors ≤ (run_rounds m rounds).2.1.scrape_errors := by
  induction rounds with
  | nil => exact fun m => ⟨le_refl _, le_refl _⟩
  | cons r rs ih =>
      intro m
      have h1 := run_round_counters_le m r
      rcases hr : run_round m r with ⟨res, m', evs⟩
      rw [hr] at h1
      cases res with
      | ret u =>
          have h2 := ih m'
          refine ⟨?_, ?_⟩ <;> simp [run_rounds, hr]
          · exact le_trans h1.1 h2.1
          · exact le_trans h1.2 h2.2
      | raised msg => simpa [run_rounds, hr] using h1

/-- C6: both counters start at 0 when the process starts, are natural
numbers for the whole lifetime, and no operation of the program — a single
`scrape_page` call or any number of rounds of the driving loop — ever
decreases either one. -/
theorem counters_monotone :
    initMetrics.scrapes_total = 0 ∧ initMetrics.scrape_errors = 0 ∧
    (∀ (m : Metrics) (url : String) (out : BlockOutcome),
      m.scrapes_total ≤ (scrape_page m url out).2.1.scrapes_total ∧
      m.scrape_errors ≤ (scrape_page m url out).2.1.scrape_errors) ∧
    (∀ (rounds : List (List (String × BlockOutcome))) (m : Metrics),
      m.scrapes_total ≤ (run_rounds m rounds).2.1.scrapes_total ∧
      m.scrape_errors ≤ (run_rounds m rounds).2.1.scrape_errors) :=
  ⟨rfl, rfl, scrape_page_counters_le, run_rounds_counters_le⟩

end PromScraper
